import Mathlib

/-!
Shallow embedding of src/main.py (a Twitter/X profile scraper): Python string
helpers, strict timestamp parsing, per-article extraction with dedup and the
global author registry, the scroll reveal loop, and the control-flow skeleton
of main, together with theorems checking the natural-language specification.
The rendering surface (Playwright), the HTML parser (BeautifulSoup) and the
image transport (httpx) are external collaborators: an Article below carries
the values those collaborators hand the core (the ad classification, the time
element, the permalink anchor, span texts, img src attributes), and the image
download itself has no influence on the collected data because the record
append sits in a finally block.
-/

namespace TwitterScrape

/-- Python str whitespace (ASCII range), as removed by str.strip(). -/
def pyIsSpace (c : Char) : Bool :=
  c == ' ' || c == '\t' || c == '\n' || c == '\r' || c == '\x0b' || c == '\x0c'

/-- Python str.strip(): drop leading and trailing whitespace. -/
def pyStrip (s : String) : String :=
  String.mk (((s.data.dropWhile pyIsSpace).reverse.dropWhile pyIsSpace).reverse)

/-- Python str.lstrip('@'): drop every leading '@' character. -/
def pyLstripAt (s : String) : String :=
  String.mk (s.data.dropWhile (fun c => c == '@'))

/-- Python s.startswith(p). -/
def startsWithStr (s p : String) : Bool :=
  List.isPrefixOf p.data s.data

/-- Helper for the Python substring test: does n occur inside the list? -/
def listOccurs (n : List Char) : List Char → Bool
  | [] => n.isEmpty
  | c :: t => List.isPrefixOf n (c :: t) || listOccurs n t

/-- Python "needle in hay" substring membership. -/
def substrOccurs (needle hay : String) : Bool :=
  listOccurs needle.data hay.data

/-- Characters strictly before the last occurrence of c (meaningful when c
    occurs in the list). -/
def beforeLast (c : Char) (l : List Char) : List Char :=
  ((l.reverse.dropWhile (fun d => d != c)).tail).reverse

/-- Python s[:s.rfind(c)]: the slice up to the last occurrence of c; when c
    does not occur, rfind yields -1 and the slice s[:-1] drops the last
    character of s (src/main.py line 423 applies this with c = '?'). -/
def sliceToRfind (c : Char) (s : String) : String :=
  if s.data.contains c then String.mk (beforeLast c s.data)
  else String.mk s.data.dropLast

/-- Python base[base.rfind("/") + 1:]: the suffix after the last '/', or the
    whole string when '/' does not occur (rfind -1 + 1 = 0). -/
def afterLastSlash (s : String) : String :=
  String.mk ((s.data.reverse.takeWhile (fun d => d != '/')).reverse)

/-- Python url.split('/')[-1].split('?')[0] (src/main.py line 212): the part
    after the last '/', truncated at the first '?'. -/
def baseUsernameOf (url : String) : String :=
  String.mk ((url.data.reverse.takeWhile (fun d => d != '/')).reverse.takeWhile
    (fun d => d != '?'))

/-- Numeric value of a digit list. -/
def digitsVal (l : List Char) : Nat :=
  l.foldl (fun acc c => acc * 10 + (c.toNat - 48)) 0

/-- Read the consecutive digits at the head; accept when their count is
    between 1 and maxLen and their value lies in [lo, hi]. This matches the
    CPython _strptime regexes for the short numeric fields (%m, %d, %H, %M,
    %S): each such field is followed by a non-digit literal, so the regex must
    consume every consecutive digit, and its alternation then succeeds exactly
    under these count and value conditions. -/
def parseNumField (maxLen lo hi : Nat) (l : List Char) : Option (Nat × List Char) :=
  let ds := l.takeWhile Char.isDigit
  let rest := l.dropWhile Char.isDigit
  if ds.length = 0 ∨ maxLen < ds.length then none
  else
    let v := digitsVal ds
    if lo ≤ v ∧ v ≤ hi then some (v, rest) else none

/-- CPython _strptime %Y: exactly four digits. -/
def parseYearField (l : List Char) : Option (Nat × List Char) :=
  let ds := l.takeWhile Char.isDigit
  let rest := l.dropWhile Char.isDigit
  if ds.length = 4 then some (digitsVal ds, rest) else none

/-- CPython _strptime %f: one to six digits, scaled to microseconds. -/
def parseFracField (l : List Char) : Option (Nat × List Char) :=
  let ds := l.takeWhile Char.isDigit
  let rest := l.dropWhile Char.isDigit
  if 1 ≤ ds.length ∧ ds.length ≤ 6 then
    some (digitsVal ds * 10 ^ (6 - ds.length), rest)
  else none

/-- Consume one expected literal character. -/
def expectLit (c : Char) (l : List Char) : Option (List Char) :=
  match l with
  | [] => none
  | d :: rest => if d == c then some rest else none

/-- Case-insensitive literal: _strptime compiles its regex with IGNORECASE. -/
def expectLitCI (c : Char) (l : List Char) : Option (List Char) :=
  match l with
  | [] => none
  | d :: rest => if d.toLower == c.toLower then some rest else none

structure PyDateTime where
  year : Nat
  month : Nat
  day : Nat
  hour : Nat
  minute : Nat
  second : Nat
  microsecond : Nat
deriving DecidableEq

def isLeapYear (y : Nat) : Bool :=
  y % 4 == 0 && (y % 100 != 0 || y % 400 == 0)

def daysInMonth (y m : Nat) : Nat :=
  if m = 2 then (if isLeapYear y then 29 else 28)
  else if m = 4 ∨ m = 6 ∨ m = 9 ∨ m = 11 then 30
  else 31

/-- datetime.strptime(s, "%Y-%m-%dT%H:%M:%S.%fZ") (src/main.py line 357):
    the CPython _strptime regex stage (single digits allowed where the field
    regexes allow them, one to six fractional digits, IGNORECASE literals,
    nothing may remain after the match), followed by the datetime constructor
    validation (year at least 1, day within the month, second at most 59).
    Returns none exactly where CPython raises ValueError. -/
def pyStrptimeTweet (s : String) : Option PyDateTime := do
  let (y, l) ← parseYearField s.data
  let l ← expectLit '-' l
  let (mo, l) ← parseNumField 2 1 12 l
  let l ← expectLit '-' l
  let (d, l) ← parseNumField 2 1 31 l
  let l ← expectLitCI 'T' l
  let (h, l) ← parseNumField 2 0 23 l
  let l ← expectLit ':' l
  let (mi, l) ← parseNumField 2 0 59 l
  let l ← expectLit ':' l
  let (se, l) ← parseNumField 2 0 61 l
  let l ← expectLit '.' l
  let (f, l) ← parseFracField l
  let l ← expectLitCI 'Z' l
  if l = [] ∧ 1 ≤ y ∧ d ≤ daysInMonth y mo ∧ se ≤ 59 then
    some ⟨y, mo, d, h, mi, se, f⟩
  else none

def pad2 (n : Nat) : String :=
  if n < 10 then "0" ++ toString n else toString n

def pad4 (n : Nat) : String :=
  if n < 10 then "000" ++ toString n
  else if n < 100 then "00" ++ toString n
  else if n < 1000 then "0" ++ toString n
  else toString n

/-- strftime("%Y年%m月%d日 %H:%M:%S") applied to the parsed value. -/
def strftimeCN (t : PyDateTime) : String :=
  pad4 t.year ++ "年" ++ pad2 t.month ++ "月" ++ pad2 t.day ++ "日 " ++
    pad2 t.hour ++ ":" ++ pad2 t.minute ++ ":" ++ pad2 t.second

/-- The whole of src/main.py line 357: parse the datetime attribute, then
    normalize; none when strptime raises. -/
def formatPublishTime (s : String) : Option String :=
  (pyStrptimeTweet s).map strftimeCN

/-- Sanitized directory name (src/main.py lines 428-430): keep alphanumerics
    (ASCII reading of Python str.isalnum), space, hyphen and underscore, strip
    the result, and fall back to "Unknown_Author" when it is empty. -/
def sanitizeAuthorDir (author : String) : String :=
  let t := pyStrip (String.mk (author.data.filter
    (fun c => c.isAlphanum || c == ' ' || c == '-' || c == '_')))
  if t = "" then "Unknown_Author" else t

/-- IMAGE_DIR_BASE (src/main.py line 136). -/
def imageDirBase : String := "images"

/-- os.path.join on POSIX for a nonempty left part without a trailing
    separator and a separator-free relative right part, the only shapes
    produced here. -/
def osJoin (a b : String) : String := a ++ "/" ++ b

/-- os.path.abspath of a dot-free relative path under an absolute cwd
    (POSIX). -/
def pyAbspath (cwd p : String) : String := cwd ++ "/" ++ p

/-- image_base_url (src/main.py line 423). -/
def imageBaseUrlOf (imageUrl : String) : String := sliceToRfind '?' imageUrl

/-- image_name (src/main.py line 424). -/
def imageNameOf (imageUrl : String) : String := afterLastSlash (imageBaseUrlOf imageUrl)

/-- local_image_path (src/main.py lines 428-439):
    images/<sanitized author>/<image_name>.jpg. -/
def localImagePathFor (author imageUrl : String) : String :=
  osJoin (osJoin imageDirBase (sanitizeAuthorDir author)) (imageNameOf imageUrl ++ ".jpg")

/-- Author resolution (src/main.py lines 372-396) over the stripped span texts
    of the User-Name container: yields (author_name, author_handle,
    author_profile_url). The first span is the display name; the first span
    starting with '@' supplies the handle; otherwise, with more than one span,
    the last span is checked for an '@' and failing that the handle and
    profile are inferred from the pipeline's target url. -/
def resolveAuthor (spanTexts : Option (List String)) (targetUrl baseUsername : String) :
    String × String × String :=
  match spanTexts with
  | none => ("", "", "")
  | some spans =>
    let authorName := spans.headD ""
    match spans.find? (fun s => startsWithStr s "@") with
    | some s => (authorName, s, "https://x.com/" ++ pyLstripAt s)
    | none =>
      if spans.length > 1 then
        let potential := spans.getLastD ""
        if startsWithStr potential "@" then
          (authorName, potential, "https://x.com/" ++ pyLstripAt potential)
        else if startsWithStr targetUrl "https://x.com/" ∧ baseUsername ≠ "" then
          (authorName, "@" ++ baseUsername, targetUrl)
        else (authorName, "", "")
      else (authorName, "", "")

structure TimeElem where
  datetime : String
  parentHref : Option String
deriving DecidableEq

/-- One rendered content block, as handed to the core by the external HTML
    collaborators: the ad classification of lines 326-328, the time element of
    line 331 with the parent anchor href of line 337, the raw tweetText
    get_text result, the img src list of the tweetPhoto container and the
    stripped span texts of the User-Name container. -/
structure Article where
  isAd : Bool
  timeElem : Option TimeElem
  tweetTextRaw : Option String
  photoImgs : Option (List String)
  authorSpans : Option (List String)
deriving DecidableEq

/-- One exported row (the tweet_data dictionary of src/main.py lines
    306-315, fixed shape). -/
structure TweetData where
  taskName : String
  publishTime : String
  author : String
  authorProfileUrl : String
  tweetUrl : String
  content : String
  imageRemoteUrl : String
  imageLocalPath : String
deriving DecidableEq

/-- The per-pipeline dedup set, the shared result list and the shared author
    mapping (src/main.py lines 178, 183, 259); the lists stand for the set and
    the insertion-ordered dict. -/
structure ScrapeState where
  processedTweetUrls : List String
  allTweetData : List TweetData
  uniqueAuthors : List (String × String)
deriving DecidableEq

/-- Per-pipeline constants: the asyncio task name, the target url and the
    working directory os.path.abspath resolves against. -/
structure ScrapeCtx where
  taskName : String
  targetUrl : String
  cwd : String
deriving DecidableEq

/-- publish_images (src/main.py lines 365-369): img src attributes of the
    tweetPhoto container, excluding any containing "video_thumb"; [] when the
    container is absent. -/
def publishImagesOf (a : Article) : List String :=
  (a.photoImgs.getD []).filter (fun src => !(substrOccurs "video_thumb" src))

/-- The author cell (src/main.py line 399): display name, then a space and
    the handle when a handle was resolved, stripped. -/
def combinedAuthor (ar : String × String × String) : String :=
  pyStrip (ar.1 ++ (if ar.2.1 ≠ "" then " " ++ ar.2.1 else ""))

/-- unique_authors registration (src/main.py lines 403-407): only when both
    author_name and author_profile_url are non-empty, and first write wins. -/
def registerAuthor (st : ScrapeState) (authorName authorProfileUrl : String) : ScrapeState :=
  if authorName ≠ "" ∧ authorProfileUrl ≠ "" then
    if (st.uniqueAuthors.find? (fun p => p.1 == authorName)).isSome then st
    else { st with uniqueAuthors := st.uniqueAuthors ++ [(authorName, authorProfileUrl)] }
  else st

/-- publish_content (src/main.py lines 360-362). -/
def contentOf (a : Article) : String :=
  match a.tweetTextRaw with
  | none => ""
  | some t => pyStrip t

/-- The resolved (author_name, author_handle, author_profile_url) of one
    article under the pipeline's target url. -/
def authorResolvedOf (ctx : ScrapeCtx) (a : Article) : String × String × String :=
  resolveAuthor a.authorSpans ctx.targetUrl (baseUsernameOf ctx.targetUrl)

/-- The tweet_data fields shared by all records of one article (src/main.py
    lines 306-315 and 343-401), with the two image fields still empty. -/
def baseRecordOf (ctx : ScrapeCtx) (a : Article) (publishUrl pt : String) : TweetData :=
  { taskName := ctx.taskName, publishTime := pt,
    author := combinedAuthor (authorResolvedOf ctx a),
    authorProfileUrl := (authorResolvedOf ctx a).2.2, tweetUrl := publishUrl,
    content := contentOf a, imageRemoteUrl := "", imageLocalPath := "" }

/-- current_image_data for one image (src/main.py lines 442-444): the copy of
    tweet_data with the two image fields filled in. -/
def imageRecordOf (ctx : ScrapeCtx) (a : Article) (publishUrl pt imageUrl : String) : TweetData :=
  { baseRecordOf ctx a publishUrl pt with
      imageRemoteUrl := imageUrl,
      imageLocalPath := pyAbspath ctx.cwd
        (localImagePathFor (combinedAuthor (authorResolvedOf ctx a)) imageUrl) }

/-- The ContentRecords appended for one fresh article (src/main.py lines
    417-465): one record per kept image with the two image fields set — the
    record is appended in a finally block, so a download failure does not
    change the appended data — or a single record with both image fields empty
    when there are no images. -/
def freshRecords (ctx : ScrapeCtx) (a : Article) (publishUrl pt : String) : List TweetData :=
  if publishImagesOf a = [] then [baseRecordOf ctx a publishUrl pt]
  else (publishImagesOf a).map (imageRecordOf ctx a publishUrl pt)

/-- The successful tail of article processing, after the url entered the dedup
    set and the timestamp parsed (src/main.py lines 356-465): register the
    author, then append the expanded records. -/
def processFreshArticle (ctx : ScrapeCtx) (st1 : ScrapeState) (a : Article)
    (publishUrl pt : String) : ScrapeState :=
  let st2 := registerAuthor st1 (authorResolvedOf ctx a).1 (authorResolvedOf ctx a).2.2
  { st2 with allTweetData := st2.allTweetData ++ freshRecords ctx a publishUrl pt }

/-- Processing of one article (body of the inner loop, src/main.py lines
    304-472): ad skip, missing time element skip, missing permalink skip, a
    dedup skip for an already seen url, then dedup insertion; a timestamp
    parse failure is the ValueError caught per article at lines 470-472 and
    leaves only the dedup insertion behind. -/
def processArticle (ctx : ScrapeCtx) (st : ScrapeState) (a : Article) : ScrapeState :=
  if a.isAd then st
  else
    match a.timeElem with
    | none => st
    | some te =>
      match te.parentHref with
      | none => st
      | some sfx =>
        let publishUrl := "https://x.com" ++ sfx
        if publishUrl ∈ st.processedTweetUrls then st
        else
          let st1 : ScrapeState :=
            { st with processedTweetUrls := st.processedTweetUrls ++ [publishUrl] }
          match formatPublishTime te.datetime with
          | none => st1
          | some pt => processFreshArticle ctx st1 a publishUrl pt

/-- What one reveal pass observes: the visibility wait either fails (the
    expect call of line 287 raising) or yields the snapshot of articles. -/
inductive PassObs where
  | waitFail
  | arts (l : List Article)

inductive ExitReason where
  | waitTimeout
  | noArticles
  | stalled
  | capReached
deriving DecidableEq

structure LoopResult where
  state : ScrapeState
  reason : ExitReason
  passes : Nat
deriving DecidableEq

/-- One scroll pass over the article snapshot, with processed_this_scroll
    (src/main.py lines 301-350): the counter increments exactly when a url is
    inserted into the dedup set, which is exactly when the set grows. -/
def processPass (ctx : ScrapeCtx) (st0 : ScrapeState) (arts : List Article) :
    ScrapeState × Nat :=
  arts.foldl
    (fun p a =>
      let st' := processArticle ctx p.1 a
      (st', p.2 + (st'.processedTweetUrls.length - p.1.processedTweetUrls.length)))
    (st0, 0)

/-- The reveal loop from pass index x with the given remaining iteration
    budget (src/main.py lines 278-477): scroll and wait (env gives the
    external outcome of pass x), break on a wait failure, break on an empty
    snapshot, process the snapshot, and break on the stall check
    "processed_this_scroll == 0 and x > 0"; passes counts the scroll attempts
    performed. Exhausted budget is the normal end of "for x in range(999)". -/
def revealLoopFrom (ctx : ScrapeCtx) (env : Nat → PassObs) :
    Nat → Nat → ScrapeState → LoopResult
  | 0, x, st => ⟨st, ExitReason.capReached, x⟩
  | fuel + 1, x, st =>
    match env x with
    | PassObs.waitFail => ⟨st, ExitReason.waitTimeout, x + 1⟩
    | PassObs.arts l =>
      if l.length = 0 then ⟨st, ExitReason.noArticles, x + 1⟩
      else
        let pr := processPass ctx st l
        if pr.2 = 0 ∧ 0 < x then ⟨pr.1, ExitReason.stalled, x + 1⟩
        else revealLoopFrom ctx env fuel (x + 1) pr.1

/-- The full reveal loop, "for x in range(999)" (src/main.py line 278). -/
def revealLoop (ctx : ScrapeCtx) (env : Nat → PassObs) (st : ScrapeState) : LoopResult :=
  revealLoopFrom ctx env 999 0 st

/-- The target file: absent, or present with its lines. -/
inductive TargetFile where
  | absent
  | present (lines : List String)

/-- read_urls_from_file (src/main.py lines 187-204): [] when the file is
    absent; otherwise the stripped lines that are non-empty and start with
    "http". -/
def readUrlsFromFile : TargetFile → List String
  | TargetFile.absent => []
  | TargetFile.present lines =>
    (lines.map pyStrip).filter (fun u => u != "" && startsWithStr u "http")

/-- Outcome of one run of main: whether it crashed and, when a workbook was
    saved, the record rows of its first sheet. -/
structure MainOutcome where
  crashed : Bool
  workbook : Option (List TweetData)
deriving DecidableEq

/-- Control-flow skeleton of main() (src/main.py lines 483-624): when
    read_urls_from_file yields no urls, main logs, closes the browser and
    returns at line 497, before the workbook is ever created; otherwise the
    scraping tasks run and the export block (lines 509-624) saves one workbook
    whose first sheet holds all_tweet_data. scraped stands for the records the
    pipelines collected. -/
def mainModel (file : TargetFile) (scraped : List TweetData) : MainOutcome :=
  if readUrlsFromFile file = [] then { crashed := false, workbook := none }
  else { crashed := false, workbook := some scraped }

/-- Modelled from the spec: the literal source format
    YYYY-MM-DDTHH:MM:SS.ffffffZ, fixed-width and zero-padded with exactly six
    fractional digits, for comparison with the code's parser. -/
def strictTimestampFormat (s : String) : Bool :=
  match s.data with
  | [y1, y2, y3, y4, a1, m1, m2, a2, d1, d2, t1, h1, h2, b1, n1, n2, b2, s1, s2, p1,
     f1, f2, f3, f4, f5, f6, z1] =>
    y1.isDigit && y2.isDigit && y3.isDigit && y4.isDigit && a1 == '-' &&
    m1.isDigit && m2.isDigit && a2 == '-' && d1.isDigit && d2.isDigit &&
    t1 == 'T' && h1.isDigit && h2.isDigit && b1 == ':' && n1.isDigit &&
    n2.isDigit && b2 == ':' && s1.isDigit && s2.isDigit && p1 == '.' &&
    f1.isDigit && f2.isDigit && f3.isDigit && f4.isDigit && f5.isDigit &&
    f6.isDigit && z1 == 'Z'
  | _ => false

/-- Modelled from the spec: "Strip any existing query string from the remote
    URL to get the base asset URL" — remove from the last '?' onward when one
    exists, otherwise leave the URL unchanged. -/
def specBaseAssetUrl (u : String) : String :=
  if u.data.contains '?' then String.mk (beforeLast '?' u.data) else u

/-- Modelled from the spec: the filename derived from the query-stripped last
    path segment, with extension ".jpg". -/
def specDerivedFilename (u : String) : String :=
  afterLastSlash (specBaseAssetUrl u) ++ ".jpg"

/-- Every ContentRecord field except the two image fields. -/
def nonImageFields (r : TweetData) : String × String × String × String × String × String :=
  (r.taskName, r.publishTime, r.author, r.authorProfileUrl, r.tweetUrl, r.content)

/-- A fresh pipeline state: empty dedup set, result list and author mapping. -/
def stEmpty : ScrapeState := ⟨[], [], []⟩

/-- A pipeline state whose dedup set already holds one permalink. -/
def stSeen : ScrapeState := ⟨["https://x.com/janedoe/status/1"], [], []⟩

/-- A concrete pipeline context. -/
def ctxJane : ScrapeCtx := ⟨"Task-1", "https://x.com/janedoe", "/work"⟩

/-- A well-formed content block with one image and an explicit handle span. -/
def artJane : Article :=
  { isAd := false,
    timeElem := some ⟨"2024-03-05T10:15:30.000000Z", some "/janedoe/status/1"⟩,
    tweetTextRaw := some "hello world",
    photoImgs := some ["https://pbs.twimg.com/media/pic1?format=jpg&name=small"],
    authorSpans := some ["Jane Doe", "Reporter", "@janedoe"] }

/-- A well-formed content block with two images. -/
def artTwo : Article :=
  { isAd := false,
    timeElem := some ⟨"2024-03-05T10:15:30.000000Z", some "/janedoe/status/3"⟩,
    tweetTextRaw := some "two pics",
    photoImgs := some ["https://pbs.twimg.com/media/p1?format=jpg",
                       "https://pbs.twimg.com/media/p2?format=jpg"],
    authorSpans := some ["Jane Doe", "@janedoe"] }

/-- A content block whose datetime attribute does not parse (month 13). -/
def artBadTime : Article :=
  { isAd := false,
    timeElem := some ⟨"2024-13-05T10:15:30.000000Z", some "/janedoe/status/2"⟩,
    tweetTextRaw := none, photoImgs := none, authorSpans := none }

/-- An advertisement block. -/
def artAd : Article :=
  { isAd := true, timeElem := none, tweetTextRaw := none, photoImgs := none,
    authorSpans := none }

/-- An environment whose every pass shows a single advertisement block. -/
def envAd : Nat → PassObs := fun _ => PassObs.arts [artAd]

/-- Registering an author never touches the dedup set. -/
theorem registerAuthor_processed (st : ScrapeState) (n p : String) :
    (registerAuthor st n p).processedTweetUrls = st.processedTweetUrls := by
  unfold registerAuthor
  repeat' split
  all_goals rfl

/-- Registering an author never touches the result list. -/
theorem registerAuthor_allTweetData (st : ScrapeState) (n p : String) :
    (registerAuthor st n p).allTweetData = st.allTweetData := by
  unfold registerAuthor
  repeat' split
  all_goals rfl

/-- The successful tail appends exactly the expanded records. -/
theorem processFreshArticle_allTweetData (ctx : ScrapeCtx) (st1 : ScrapeState)
    (a : Article) (u pt : String) :
    (processFreshArticle ctx st1 a u pt).allTweetData
      = st1.allTweetData ++ freshRecords ctx a u pt := by
  unfold processFreshArticle
  simp [registerAuthor_allTweetData]

/-- The successful tail does not touch the dedup set it was given. -/
theorem processFreshArticle_processed (ctx : ScrapeCtx) (st1 : ScrapeState)
    (a : Article) (u pt : String) :
    (processFreshArticle ctx st1 a u pt).processedTweetUrls = st1.processedTweetUrls := by
  unfold processFreshArticle
  simp [registerAuthor_processed]

/-- The successful tail changes the author mapping exactly as registerAuthor
    does. -/
theorem processFreshArticle_uniqueAuthors (ctx : ScrapeCtx) (st1 : ScrapeState)
    (a : Article) (u pt : String) :
    (processFreshArticle ctx st1 a u pt).uniqueAuthors
      = (registerAuthor st1 (authorResolvedOf ctx a).1 (authorResolvedOf ctx a).2.2).uniqueAuthors :=
  rfl

/-- Under the five freshness conditions, processing one article is the
    dedup insertion followed by the successful tail. -/
theorem processArticle_fresh (ctx : ScrapeCtx) (st : ScrapeState) (a : Article)
    (te : TimeElem) (sfx pt : String)
    (h1 : a.isAd = false) (h2 : a.timeElem = some te) (h3 : te.parentHref = some sfx)
    (h4 : "https://x.com" ++ sfx ∉ st.processedTweetUrls)
    (h5 : formatPublishTime te.datetime = some pt) :
    processArticle ctx st a =
      processFreshArticle ctx
        { st with processedTweetUrls := st.processedTweetUrls ++ ["https://x.com" ++ sfx] }
        a ("https://x.com" ++ sfx) pt := by
  unfold processArticle
  simp only [h1, h2, h3, h4, h5, Bool.false_eq_true, if_false]

/-- Processing an article can only grow the dedup set. -/
theorem processArticle_processed_mono (ctx : ScrapeCtx) (st : ScrapeState)
    (a : Article) (u : String) (hu : u ∈ st.processedTweetUrls) :
    u ∈ (processArticle ctx st a).processedTweetUrls := by
  unfold processArticle
  repeat' split
  all_goals try exact hu
  all_goals try dsimp only
  all_goals split
  all_goals try exact hu
  all_goals try dsimp only
  all_goals try exact List.mem_append_left _ hu
  all_goals try rw [processFreshArticle_processed]
  all_goals exact List.mem_append_left _ hu

/-- With at least one kept image, one record is appended per kept image. -/
theorem freshRecords_length_of_images (ctx : ScrapeCtx) (a : Article) (u pt : String)
    (h : publishImagesOf a ≠ []) :
    (freshRecords ctx a u pt).length = (publishImagesOf a).length := by
  unfold freshRecords
  rw [if_neg h, List.length_map]

/-- With no kept image, exactly the base record is appended. -/
theorem freshRecords_of_no_images (ctx : ScrapeCtx) (a : Article) (u pt : String)
    (h : publishImagesOf a = []) :
    freshRecords ctx a u pt = [baseRecordOf ctx a u pt] := by
  unfold freshRecords
  rw [if_pos h]

/-- Every expanded record of one article carries the same non-image fields. -/
theorem freshRecords_nonImage_agree (ctx : ScrapeCtx) (a : Article) (u pt : String) :
    ∀ r ∈ freshRecords ctx a u pt, ∀ q ∈ freshRecords ctx a u pt,
      nonImageFields r = nonImageFields q := by
  intro r hr q hq
  unfold freshRecords at hr hq
  by_cases h : publishImagesOf a = []
  · rw [if_pos h] at hr hq
    simp only [List.mem_singleton] at hr hq
    rw [hr, hq]
  · rw [if_neg h] at hr hq
    simp only [List.mem_map] at hr hq
    obtain ⟨x, _, hx⟩ := hr
    obtain ⟨y, _, hy⟩ := hq
    rw [← hx, ← hy]
    rfl

/-- C1: for a content block with a valid time element, a permalink and N kept
    well-formed image URLs, extraction plus image expansion appends exactly N
    records when N is positive and exactly one record with both image fields
    empty when N is zero, all appended records agreeing on every field except
    the two image fields, and the previously collected records are left in
    place. -/
theorem C1_image_expansion (ctx : ScrapeCtx) (st : ScrapeState) (a : Article)
    (te : TimeElem) (sfx pt : String)
    (h1 : a.isAd = false) (h2 : a.timeElem = some te) (h3 : te.parentHref = some sfx)
    (h4 : "https://x.com" ++ sfx ∉ st.processedTweetUrls)
    (h5 : formatPublishTime te.datetime = some pt) :
    (processArticle ctx st a).allTweetData.take st.allTweetData.length = st.allTweetData
    ∧ (publishImagesOf a ≠ [] →
        ((processArticle ctx st a).allTweetData.drop st.allTweetData.length).length
          = (publishImagesOf a).length)
    ∧ (publishImagesOf a = [] →
        ((processArticle ctx st a).allTweetData.drop st.allTweetData.length).length = 1
        ∧ ∀ r ∈ (processArticle ctx st a).allTweetData.drop st.allTweetData.length,
            r.imageRemoteUrl = "" ∧ r.imageLocalPath = "")
    ∧ ∀ r ∈ (processArticle ctx st a).allTweetData.drop st.allTweetData.length,
        ∀ q ∈ (processArticle ctx st a).allTweetData.drop st.allTweetData.length,
          nonImageFields r = nonImageFields q := by
  have hA : (processArticle ctx st a).allTweetData
      = st.allTweetData ++ freshRecords ctx a ("https://x.com" ++ sfx) pt := by
    rw [processArticle_fresh ctx st a te sfx pt h1 h2 h3 h4 h5,
      processFreshArticle_allTweetData]
  rw [hA, List.take_left, List.drop_left]
  refine ⟨rfl, ?_, ?_, freshRecords_nonImage_agree ctx a _ pt⟩
  · intro h
    exact freshRecords_length_of_images ctx a _ pt h
  · intro h
    rw [freshRecords_of_no_images ctx a _ pt h]
    exact ⟨rfl, by intro r hr; simp only [List.mem_singleton] at hr; rw [hr]; exact ⟨rfl, rfl⟩⟩

/-- C1 witness: the two-image block artTwo expands to exactly two records. -/
theorem C1_image_expansion_witness :
    ((processArticle ctxJane stEmpty artTwo).allTweetData.drop
      stEmpty.allTweetData.length).length = 2 := by
  have h := C1_image_expansion ctxJane stEmpty artTwo
    ⟨"2024-03-05T10:15:30.000000Z", some "/janedoe/status/3"⟩ "/janedoe/status/3"
    "2024年03月05日 10:15:30" rfl rfl rfl (by decide) (by decide)
  rw [h.2.1 (by decide)]
  decide

/-- C2: re-processing a content block whose permalink is already in the
    per-target dedup set leaves the whole state — records, dedup set and
    author mapping — unchanged; and the dedup set only ever grows, so a
    permalink once seen stays seen across all later observations and scroll
    passes. -/
theorem C2_dedup_idempotent (ctx : ScrapeCtx) (st : ScrapeState) (a : Article)
    (te : TimeElem) (sfx u : String) :
    (a.isAd = false → a.timeElem = some te → te.parentHref = some sfx →
      "https://x.com" ++ sfx ∈ st.processedTweetUrls → processArticle ctx st a = st)
    ∧ (u ∈ st.processedTweetUrls → u ∈ (processArticle ctx st a).processedTweetUrls) := by
  constructor
  · intro h1 h2 h3 hmem
    unfold processArticle
    simp only [h1, h2, h3, Bool.false_eq_true, if_false]
    rw [if_pos hmem]
  · intro hu
    exact processArticle_processed_mono ctx st a u hu

/-- C2 witness: artJane, whose permalink is already in stSeen, changes
    nothing. -/
theorem C2_dedup_idempotent_witness :
    processArticle ctxJane stSeen artJane = stSeen :=
  (C2_dedup_idempotent ctxJane stSeen artJane
    ⟨"2024-03-05T10:15:30.000000Z", some "/janedoe/status/1"⟩ "/janedoe/status/1"
    "").1 rfl rfl rfl (by decide)

/-- C3: a reveal pass at index x with a non-empty article snapshot and zero
    newly accepted items terminates the loop as stalled, with no further
    scroll attempt, exactly when x is positive; at pass index 0 the same
    situation lets the loop continue with pass 1. -/
theorem C3_scroll_stall (ctx : ScrapeCtx) (env : Nat → PassObs) (fuel x : Nat)
    (st : ScrapeState) (l : List Article)
    (henv : env x = PassObs.arts l) (hne : l ≠ [])
    (hzero : (processPass ctx st l).2 = 0) :
    (0 < x → revealLoopFrom ctx env (fuel + 1) x st
        = ⟨(processPass ctx st l).1, ExitReason.stalled, x + 1⟩)
    ∧ (x = 0 → revealLoopFrom ctx env (fuel + 1) x st
        = revealLoopFrom ctx env fuel (x + 1) (processPass ctx st l).1) := by
  have hlen : l.length ≠ 0 := by simpa [List.length_eq_zero] using hne
  constructor
  · intro hx
    simp only [revealLoopFrom, henv]
    rw [if_neg hlen, if_pos ⟨hzero, hx⟩]
  · intro hx
    subst hx
    simp only [revealLoopFrom, henv]
    rw [if_neg hlen, if_neg (fun h => Nat.lt_irrefl 0 h.2)]

/-- C3 witness: a pass at index 1 showing only an advertisement (zero new
    items) stalls the loop at once. -/
theorem C3_scroll_stall_witness :
    revealLoopFrom ctxJane envAd 5 1 stEmpty
      = ⟨(processPass ctxJane stEmpty [artAd]).1, ExitReason.stalled, 2⟩ :=
  (C3_scroll_stall ctxJane envAd 4 1 stEmpty [artAd] rfl (by decide) (by decide)).1
    (by decide)

/-- C4: for spans ["Jane Doe", "Reporter", "@janedoe"], resolution yields the
    handle "@janedoe" and the profile url "https://x.com/janedoe"; in general
    the first span starting with '@' in span order fixes the handle and the
    profile url, regardless of the target url, so the explicit '@' span wins
    over the target-url fallback whenever both are derivable. -/
theorem C4_author_precedence (url base : String) (spans : List String) (s : String) :
    resolveAuthor (some ["Jane Doe", "Reporter", "@janedoe"]) url base
      = ("Jane Doe", "@janedoe", "https://x.com/janedoe")
    ∧ (spans.find? (fun t => startsWithStr t "@") = some s →
        resolveAuthor (some spans) url base
          = (spans.headD "", s, "https://x.com/" ++ pyLstripAt s)) := by
  constructor
  · rfl
  · intro h
    simp only [resolveAuthor, h]

/-- C4 witness: the '@' span wins even when the target url would supply a
    different handle. -/
theorem C4_author_precedence_witness :
    resolveAuthor (some ["Alice", "@alice"]) "https://x.com/bob" "bob"
      = ("Alice", "@alice", "https://x.com/alice") := by
  have h := (C4_author_precedence "https://x.com/bob" "bob" ["Alice", "@alice"]
    "@alice").2 (by decide)
  rw [h]
  decide

/-- C5 counterexample: with an absent target file, and likewise with a file
    holding no valid url, main returns early without crashing and saves no
    workbook at all — the export does not run, so no empty result workbook is
    produced, contrary to the claim. -/
theorem C5_export_skip_counterexample :
    (mainModel TargetFile.absent []).crashed = false
    ∧ (mainModel TargetFile.absent []).workbook = none
    ∧ (mainModel (TargetFile.present ["", "not-a-url"]) []).workbook = none := by
  decide

/-- C5 amended: when the target url list comes up empty (absent file or no
    valid line), the run does not crash: the condition is logged and main
    returns early, before the export block, so no result workbook — not even
    an empty one — is produced. -/
theorem C5_export_skip_amended (file : TargetFile) (scraped : List TweetData)
    (h : readUrlsFromFile file = []) :
    mainModel file scraped = { crashed := false, workbook := none } := by
  simp [mainModel, h]

/-- C5 witness: the absent-file case. -/
theorem C5_export_skip_witness :
    mainModel TargetFile.absent [] = { crashed := false, workbook := none } :=
  C5_export_skip_amended TargetFile.absent [] rfl

/-- C6: evaluating the filename derivation at a remote URL with no query
    string: the code slices off the last character of the URL (rfind '?'
    yields -1), deriving "abc12" and a local path ending "abc12.jpg", while
    the query-stripped last path segment of the claim is "abc123"; with a
    query string present the two derivations agree. -/
theorem C6_noquery_filename_eval :
    imageNameOf "https://pbs.twimg.com/media/abc123" = "abc12"
    ∧ specDerivedFilename "https://pbs.twimg.com/media/abc123" = "abc123.jpg"
    ∧ localImagePathFor "Some Author" "https://pbs.twimg.com/media/abc123"
        = "images/Some Author/abc12.jpg"
    ∧ imageNameOf "https://pbs.twimg.com/media/abc123?format=jpg&name=small"
        = "abc123"
    ∧ specDerivedFilename "https://pbs.twimg.com/media/abc123?format=jpg&name=small"
        = "abc123.jpg" := by
  decide

/-- C7 counterexample: "2024-03-05T10:15:30.5Z" does not match the format
    YYYY-MM-DDTHH:MM:SS.ffffffZ (one fractional digit instead of six), yet the
    code parses it without error — strptime's %f accepts one to six digits —
    and even yields the same normalized output as the canonical string. -/
theorem C7_lenient_parse_counterexample :
    strictTimestampFormat "2024-03-05T10:15:30.5Z" = false
    ∧ formatPublishTime "2024-03-05T10:15:30.5Z" = some "2024年03月05日 10:15:30" := by
  decide

/-- C7 amended: the timestamp source "2024-03-05T10:15:30.000000Z" normalizes
    to "2024年03月05日 10:15:30"; any source string the parser rejects is a
    hard error confined to that block: the block's permalink enters the dedup
    set but no record is appended and no author is registered, the rest of the
    state being untouched — though the parser, strptime with format
    %Y-%m-%dT%H:%M:%S.%fZ, also accepts field-width variants of the stated
    format. -/
theorem C7_strict_parse_amended :
    formatPublishTime "2024-03-05T10:15:30.000000Z" = some "2024年03月05日 10:15:30"
    ∧ ∀ (ctx : ScrapeCtx) (st : ScrapeState) (a : Article) (te : TimeElem) (sfx : String),
        a.isAd = false → a.timeElem = some te → te.parentHref = some sfx →
        "https://x.com" ++ sfx ∉ st.processedTweetUrls →
        formatPublishTime te.datetime = none →
        processArticle ctx st a
          = { st with processedTweetUrls := st.processedTweetUrls ++ ["https://x.com" ++ sfx] } := by
  constructor
  · decide
  · intro ctx st a te sfx h1 h2 h3 h4 h5
    unfold processArticle
    simp only [h1, h2, h3, h5, Bool.false_eq_true, if_false]
    rw [if_neg h4]

/-- C7 witness: the unparseable month-13 block only marks its permalink as
    seen. -/
theorem C7_strict_parse_witness :
    processArticle ctxJane stEmpty artBadTime
      = { stEmpty with processedTweetUrls :=
            stEmpty.processedTweetUrls ++ ["https://x.com" ++ "/janedoe/status/2"] } :=
  C7_strict_parse_amended.2 ctxJane stEmpty artBadTime
    ⟨"2024-13-05T10:15:30.000000Z", some "/janedoe/status/2"⟩ "/janedoe/status/2"
    rfl rfl rfl (by decide) (by decide)

/-- C8 counterexample: for artJane (display name "Jane Doe", handle span
    "@janedoe"), the recorded image path lies under the directory
    "Jane Doe janedoe" — the sanitization of the combined author cell "Jane
    Doe @janedoe" — not under the sanitized display name "Jane Doe" as the
    claim states. -/
theorem C8_author_dir_counterexample :
    (processArticle ctxJane stEmpty artJane).allTweetData.map TweetData.imageLocalPath
      = ["/work/images/Jane Doe janedoe/pic1.jpg"]
    ∧ sanitizeAuthorDir "Jane Doe" = "Jane Doe"
    ∧ (processArticle ctxJane stEmpty artJane).allTweetData.map TweetData.imageLocalPath
      ≠ ["/work/images/Jane Doe/pic1.jpg"] := by
  decide

/-- C8 amended: for every record appended for one fresh block, a non-empty
    image path equals the cwd-absolute form of
    images/<sanitized combined author>/<derived filename>.jpg, where the
    sanitized directory comes from the combined author cell — the display name
    followed by a space and the handle when a handle was resolved — retaining
    alphanumerics, space, hyphen and underscore and falling back to
    "Unknown_Author" when empty. -/
theorem C8_author_dir_amended (ctx : ScrapeCtx) (st : ScrapeState) (a : Article)
    (te : TimeElem) (sfx pt : String)
    (h1 : a.isAd = false) (h2 : a.timeElem = some te) (h3 : te.parentHref = some sfx)
    (h4 : "https://x.com" ++ sfx ∉ st.processedTweetUrls)
    (h5 : formatPublishTime te.datetime = some pt) :
    ∀ r ∈ (processArticle ctx st a).allTweetData.drop st.allTweetData.length,
      r.imageLocalPath = ""
      ∨ r.imageLocalPath = pyAbspath ctx.cwd
          (osJoin (osJoin imageDirBase
            (sanitizeAuthorDir (combinedAuthor (authorResolvedOf ctx a))))
            (imageNameOf r.imageRemoteUrl ++ ".jpg")) := by
  have hA : (processArticle ctx st a).allTweetData
      = st.allTweetData ++ freshRecords ctx a ("https://x.com" ++ sfx) pt := by
    rw [processArticle_fresh ctx st a te sfx pt h1 h2 h3 h4 h5,
      processFreshArticle_allTweetData]
  rw [hA, List.drop_left]
  intro r hr
  unfold freshRecords at hr
  by_cases h : publishImagesOf a = []
  · rw [if_pos h] at hr
    simp only [List.mem_singleton] at hr
    rw [hr]
    exact Or.inl rfl
  · rw [if_neg h] at hr
    simp only [List.mem_map] at hr
    obtain ⟨x, _, hx⟩ := hr
    rw [← hx]
    exact Or.inr rfl

/-- The record that processing artJane appends. -/
def recJane : TweetData :=
  { taskName := "Task-1", publishTime := "2024年03月05日 10:15:30",
    author := "Jane Doe @janedoe", authorProfileUrl := "https://x.com/janedoe",
    tweetUrl := "https://x.com/janedoe/status/1", content := "hello world",
    imageRemoteUrl := "https://pbs.twimg.com/media/pic1?format=jpg&name=small",
    imageLocalPath := "/work/images/Jane Doe janedoe/pic1.jpg" }

/-- C8 witness: the concrete appended record of artJane satisfies the amended
    path shape. -/
theorem C8_author_dir_witness :
    recJane.imageLocalPath = ""
    ∨ recJane.imageLocalPath = pyAbspath ctxJane.cwd
        (osJoin (osJoin imageDirBase
          (sanitizeAuthorDir (combinedAuthor (authorResolvedOf ctxJane artJane))))
          (imageNameOf recJane.imageRemoteUrl ++ ".jpg")) :=
  C8_author_dir_amended ctxJane stEmpty artJane
    ⟨"2024-03-05T10:15:30.000000Z", some "/janedoe/status/1"⟩ "/janedoe/status/1"
    "2024年03月05日 10:15:30" rfl rfl rfl (by decide) (by decide) recJane (by decide)

/-- The number of scroll attempts never exceeds the starting index plus the
    remaining budget. -/
theorem revealLoopFrom_passes_le (ctx : ScrapeCtx) (env : Nat → PassObs) :
    ∀ fuel x st, (revealLoopFrom ctx env fuel x st).passes ≤ x + fuel := by
  intro fuel
  induction fuel with
  | zero =>
    intro x st
    simp [revealLoopFrom]
  | succ n ih =>
    intro x st
    simp only [revealLoopFrom]
    cases henv : env x with
    | waitFail =>
      show x + 1 ≤ x + (n + 1)
      omega
    | arts l =>
      dsimp only
      by_cases hl : l.length = 0
      · rw [if_pos hl]
        show x + 1 ≤ x + (n + 1)
        omega
      · rw [if_neg hl]
        by_cases hst : (processPass ctx st l).2 = 0 ∧ 0 < x
        · rw [if_pos hst]
          show x + 1 ≤ x + (n + 1)
          omega
        · rw [if_neg hst]
          have := ih (x + 1) (processPass ctx st l).1
          omega

/-- C9: the reveal loop always terminates with at most 999 scroll passes, and
    an exhausted budget returns the accumulated state normally — the
    cap-reached exit is a plain loop end like a stall, not an error. -/
theorem C9_loop_cap (ctx : ScrapeCtx) (env : Nat → PassObs) (st st' : ScrapeState)
    (x : Nat) :
    (revealLoop ctx env st).passes ≤ 999
    ∧ revealLoopFrom ctx env 0 x st' = ⟨st', ExitReason.capReached, x⟩ :=
  ⟨revealLoopFrom_passes_le ctx env 999 0 st, rfl⟩

/-- C10: the global author mapping changes during the processing of one
    article only when both the resolved display name and the resolved profile
    url are non-empty, and then exactly by appending that pair; contrapositive:
    an item without a resolvable profile url never creates an author entry,
    even when its display name is present. -/
theorem C10_author_registration (ctx : ScrapeCtx) (st : ScrapeState) (a : Article)
    (h : (processArticle ctx st a).uniqueAuthors ≠ st.uniqueAuthors) :
    (authorResolvedOf ctx a).1 ≠ "" ∧ (authorResolvedOf ctx a).2.2 ≠ ""
    ∧ (processArticle ctx st a).uniqueAuthors
        = st.uniqueAuthors ++ [((authorResolvedOf ctx a).1, (authorResolvedOf ctx a).2.2)] := by
  by_cases had : a.isAd = true
  · exact absurd (by simp [processArticle, had]) h
  · have h1 : a.isAd = false := by simpa using had
    rcases hte : a.timeElem with _ | te
    · exact absurd (by simp [processArticle, h1, hte]) h
    · rcases hhr : te.parentHref with _ | sfx
      · exact absurd (by simp [processArticle, h1, hte, hhr]) h
      · by_cases hmem : ("https://x.com" ++ sfx) ∈ st.processedTweetUrls
        · exact absurd (by simp [processArticle, h1, hte, hhr, hmem]) h
        · rcases hfmt : formatPublishTime te.datetime with _ | pt
          · exact absurd
              (by simp [processArticle, h1, hte, hhr, hmem, hfmt]) h
          · have heq := processArticle_fresh ctx st a te sfx pt h1 hte hhr hmem hfmt
            rw [heq] at h ⊢
            rw [processFreshArticle_uniqueAuthors] at h ⊢
            unfold registerAuthor at h ⊢
            by_cases hg : (authorResolvedOf ctx a).1 ≠ "" ∧ (authorResolvedOf ctx a).2.2 ≠ ""
            · rw [if_pos hg] at h ⊢
              by_cases hf : (ScrapeState.uniqueAuthors
                  { st with processedTweetUrls :=
                      st.processedTweetUrls ++ ["https://x.com" ++ sfx] }
                    |>.find? (fun p => p.1 == (authorResolvedOf ctx a).1)).isSome
              · exact absurd (by rw [if_pos hf]) h
              · rw [if_neg hf]
                exact ⟨hg.1, hg.2, rfl⟩
            · exact absurd (by rw [if_neg hg]) h

/-- C10 witness: artJane does change the author mapping, and accordingly its
    resolved name and profile url are non-empty and are appended as a pair. -/
theorem C10_author_registration_witness :
    (authorResolvedOf ctxJane artJane).1 ≠ "" ∧ (authorResolvedOf ctxJane artJane).2.2 ≠ ""
    ∧ (processArticle ctxJane stEmpty artJane).uniqueAuthors
        = stEmpty.uniqueAuthors
          ++ [((authorResolvedOf ctxJane artJane).1, (authorResolvedOf ctxJane artJane).2.2)] :=
  C10_author_registration ctxJane stEmpty artJane (by decide)

end TwitterScrape
